import Mathlib

/-!
Verification of `src/internal/document/service/dots_ocr.py`.

The script is a command-line OCR stub.  Its only interaction with the
environment is `os.path.exists` on the given path, so the environment is
modelled as an oracle `String → Except String Bool`: `.ok b` means the
existence check returned `b`, `.error m` means it raised an exception whose
message is `m` (each stub body runs inside `try ... except Exception as e`).

JSON values are modelled by a mutual inductive mirroring the Python
dictionaries and lists the script builds, and `dumps` mirrors Python
`json.dumps` (default separators, with the `ensure_ascii` flag: the two
usage-level error paths use the default `ensure_ascii=True`, the result
paths pass `ensure_ascii=False`).
-/

mutual
inductive JsonVal where
  | str (s : String)
  | intVal (n : Int)
  | floatVal (q : ℚ)
  | arr (xs : JsonArr)
  | obj (fields : JsonObj)

inductive JsonArr where
  | nil
  | cons (v : JsonVal) (rest : JsonArr)

inductive JsonObj where
  | nil
  | cons (key : String) (v : JsonVal) (rest : JsonObj)
end

/-- Number of fields of a JSON object. -/
def JsonObj.length : JsonObj → Nat
  | .nil => 0
  | .cons _ _ rest => rest.length + 1

/-- Number of elements of a JSON array. -/
def JsonArr.length : JsonArr → Nat
  | .nil => 0
  | .cons _ rest => rest.length + 1

/-- First value bound to `key` in a JSON object. -/
def JsonObj.lookup : JsonObj → String → Option JsonVal
  | .nil, _ => none
  | .cons k v rest, key => if key = k then some v else rest.lookup key

/-- Field access on a JSON value: `none` unless the value is an object with
the field. -/
def JsonVal.lookup : JsonVal → String → Option JsonVal
  | .obj fields, key => fields.lookup key
  | _, _ => none

/-- `sub` occurs contiguously inside `hay`. -/
def containsSubstring (hay sub : String) : Prop :=
  ∃ front back : String, hay = front ++ sub ++ back

/-- Lower-case hexadecimal digit, as in CPython `\uXXXX` escapes. -/
def hexDigitChar (n : Nat) : Char :=
  if n < 10 then Char.ofNat (48 + n) else Char.ofNat (87 + n)

/-- A `\uXXXX` escape for a code unit `n < 0x10000`. -/
def uEscape (n : Nat) : String :=
  "\\u" ++ String.mk [hexDigitChar (n / 4096 % 16), hexDigitChar (n / 256 % 16),
    hexDigitChar (n / 16 % 16), hexDigitChar (n % 16)]

/-- How CPython `json` module renders one character inside a string
literal: the two-character escapes for backslash, quote, `\b`, `\f`, `\n`,
`\r`, `\t`; `\uXXXX` for the remaining control characters; and, only when
`ensure_ascii` is set, `\uXXXX` (with surrogate pairs above `0xFFFF`) for
every character outside the printable ASCII range `0x20`–`0x7E`.  Otherwise
the character itself. -/
def escapeChar (ensure_ascii : Bool) (c : Char) : String :=
  if c = '\\' then "\\\\"
  else if c = '"' then "\\\""
  else if c = Char.ofNat 8 then "\\b"
  else if c = Char.ofNat 12 then "\\f"
  else if c = '\n' then "\\n"
  else if c = '\r' then "\\r"
  else if c = '\t' then "\\t"
  else if c.toNat < 32 then uEscape c.toNat
  else if ensure_ascii ∧ 127 ≤ c.toNat then
    if c.toNat < 65536 then uEscape c.toNat
    else
      uEscape (55296 + (c.toNat - 65536) / 1024) ++ uEscape (56320 + (c.toNat - 65536) % 1024)
  else String.singleton c

/-- A JSON string literal as CPython `json.dumps` renders it. -/
def py_json_quote (ensure_ascii : Bool) (s : String) : String :=
  "\"" ++ String.join (s.data.map (escapeChar ensure_ascii)) ++ "\""

/-- Decimal rendering of a rational whose denominator divides a power of
ten, matching `repr` of the corresponding Python float for the literals the
script contains (`0.95`). -/
def floatRepr (q : ℚ) : String :=
  if q.den = 1 then toString q.num
  else
    match (List.range 40).find? (fun k => 10 ^ k % q.den == 0) with
    | some k =>
        let scaled : Int := q.num * ((10 ^ k / q.den : Nat) : Int)
        let sign := if scaled < 0 then "-" else ""
        let a := scaled.natAbs
        let fpStr := toString (a % 10 ^ k)
        sign ++ toString (a / 10 ^ k) ++ "." ++
          String.mk (List.replicate (k - fpStr.length) '0') ++ fpStr
    | none => toString q.num ++ "/" ++ toString q.den

mutual
/-- Python `json.dumps` with the default separators. -/
def dumps (ensure_ascii : Bool) : JsonVal → String
  | .str s => py_json_quote ensure_ascii s
  | .intVal n => toString n
  | .floatVal q => floatRepr q
  | .arr xs => "[" ++ dumpsArr ensure_ascii xs ++ "]"
  | .obj fields => "\x7b" ++ dumpsObj ensure_ascii fields ++ "\x7d"

/-- Elements of a JSON array joined by `", "`. -/
def dumpsArr (ensure_ascii : Bool) : JsonArr → String
  | .nil => ""
  | .cons v .nil => dumps ensure_ascii v
  | .cons v (.cons w rest) =>
      dumps ensure_ascii v ++ ", " ++ dumpsArr ensure_ascii (.cons w rest)

/-- Fields of a JSON object rendered as `"key": value` joined by `", "`. -/
def dumpsObj (ensure_ascii : Bool) : JsonObj → String
  | .nil => ""
  | .cons k v .nil => py_json_quote ensure_ascii k ++ ": " ++ dumps ensure_ascii v
  | .cons k v (.cons k2 w rest) =>
      py_json_quote ensure_ascii k ++ ": " ++ dumps ensure_ascii v ++ ", " ++
        dumpsObj ensure_ascii (.cons k2 w rest)
end

/-- `extract_text_from_image` from `dots_ocr.py`.  `os_path_exists` is the
`os.path.exists` oracle; its `.error` outcome stands for an exception raised
during the body, which the surrounding `try`/`except` turns into
`{"error": str(e)}`. -/
def extract_text_from_image (os_path_exists : String → Except String Bool)
    (image_path : String) : JsonVal :=
  match os_path_exists image_path with
  | .error e => .obj (.cons "error" (.str e) .nil)
  | .ok ex =>
      if !ex then
        .obj (.cons "error" (.str ("File not found: " ++ image_path)) .nil)
      else
        .obj (.cons "text" (.str ("Simulated OCR result for " ++ image_path))
             (.cons "confidence" (.floatVal 0.95)
             (.cons "language" (.str "zh")
             (.cons "boxes" (.arr .nil) .nil))))

/-- `extract_text_from_pdf` from `dots_ocr.py`, same conventions as
`extract_text_from_image`. -/
def extract_text_from_pdf (os_path_exists : String → Except String Bool)
    (pdf_path : String) : JsonVal :=
  match os_path_exists pdf_path with
  | .error e => .obj (.cons "error" (.str e) .nil)
  | .ok ex =>
      if !ex then
        .obj (.cons "error" (.str ("File not found: " ++ pdf_path)) .nil)
      else
        .obj (.cons "pages"
          (.arr (.cons
            (.obj (.cons "page" (.intVal 1)
                  (.cons "text" (.str ("Simulated OCR result for page 1 of " ++ pdf_path))
                  (.cons "confidence" (.floatVal 0.95)
                  (.cons "language" (.str "zh") .nil)))))
            .nil))
          .nil)

/-- The success dictionary the image stub builds for an existing path. -/
def imageSuccess (image_path : String) : JsonVal :=
  .obj (.cons "text" (.str ("Simulated OCR result for " ++ image_path))
       (.cons "confidence" (.floatVal 0.95)
       (.cons "language" (.str "zh")
       (.cons "boxes" (.arr .nil) .nil))))

/-- The success dictionary the PDF stub builds for an existing path. -/
def pdfSuccess (pdf_path : String) : JsonVal :=
  .obj (.cons "pages"
    (.arr (.cons
      (.obj (.cons "page" (.intVal 1)
            (.cons "text" (.str ("Simulated OCR result for page 1 of " ++ pdf_path))
            (.cons "confidence" (.floatVal 0.95)
            (.cons "language" (.str "zh") .nil)))))
      .nil))
    .nil)

/-- The single-field error dictionary both stubs return on failure. -/
def errorObj (m : String) : JsonVal :=
  .obj (.cons "error" (.str m) .nil)

/-- Observable outcome of one process invocation: what was printed to
standard output and the exit status (`print` appends a newline;
`sys.exit(1)` gives status 1, falling off the end gives status 0). -/
structure ProcOutput where
  stdout : String
  exitCode : Nat

namespace dots_ocr

/-- `main` from `dots_ocr.py`, as a function of the `os.path.exists` oracle
and of `sys.argv` (whose head is the program name). -/
def main (os_path_exists : String → Except String Bool)
    (argv : List String) : ProcOutput :=
  if argv.length < 3 then
    { stdout := dumps true (errorObj "Usage: python dots_ocr.py <mode> <file_path>") ++ "\n",
      exitCode := 1 }
  else
    let mode := argv.getD 1 ""
    let file_path := argv.getD 2 ""
    if mode = "image" then
      { stdout := dumps false (extract_text_from_image os_path_exists file_path) ++ "\n",
        exitCode := 0 }
    else if mode = "pdf" then
      { stdout := dumps false (extract_text_from_pdf os_path_exists file_path) ++ "\n",
        exitCode := 0 }
    else
      { stdout := dumps true (errorObj "Invalid mode. Use \x27image\x27 or \x27pdf\x27") ++ "\n",
        exitCode := 1 }

end dots_ocr

/-- Test environment in which every path exists. -/
def envAll : String → Except String Bool := fun _ => .ok true

/-- Test environment in which no path exists. -/
def envNone : String → Except String Bool := fun _ => .ok false

/-- Test environment in which the existence check raises. -/
def envRaise : String → Except String Bool := fun _ => .error "Permission denied"

/-- The Python literal `0.95`, as elaborated to `ℚ`, in computable form. -/
theorem zeroPoint95_eq : (0.95 : ℚ) = mkRat 19 20 := by norm_num [mkRat]

/-- The rendering of the Python float literal `0.95` used by the script. -/
theorem floatRepr_zeroPoint95 : floatRepr 0.95 = "0.95" := by
  rw [zeroPoint95_eq]; decide

/-- Spec scenario check: serialized PDF-mode output for an existing path
`./exists.pdf` is the exact JSON text the specification displays. -/
theorem scenario_pdf_exists :
    dumps false (extract_text_from_pdf envAll "./exists.pdf") =
      "\x7b\"pages\": [\x7b\"page\": 1, \"text\": \"Simulated OCR result for page 1 of ./exists.pdf\", \"confidence\": 0.95, \"language\": \"zh\"\x7d]\x7d" := by
  simp only [extract_text_from_pdf, envAll, zeroPoint95_eq]
  decide

/-- Spec scenario check: serialized image-mode output for a missing path
`./missing.png` is the exact JSON text the specification displays, and the
process exits 0. -/
theorem scenario_image_missing :
    dumps false (extract_text_from_image envNone "./missing.png") =
      "\x7b\"error\": \"File not found: ./missing.png\"\x7d" ∧
    (dots_ocr.main envNone ["dots_ocr.py", "image", "./missing.png"]).exitCode = 0 := by
  exact ⟨by decide, rfl⟩

/-- Claim C1: for every path that exists, `extract_text_from_image` returns
a mapping whose `confidence` field equals `0.95`, whose `language` field
equals `"zh"`, whose `boxes` field is the empty sequence, and whose `text`
field contains the path as a substring. -/
theorem image_success_fields (env : String → Except String Bool) (p : String)
    (h : env p = .ok true) :
    (extract_text_from_image env p).lookup "confidence" = some (.floatVal 0.95) ∧
    (extract_text_from_image env p).lookup "language" = some (.str "zh") ∧
    (extract_text_from_image env p).lookup "boxes" = some (.arr .nil) ∧
    ∃ t : String, (extract_text_from_image env p).lookup "text" = some (.str t) ∧
      containsSubstring t p := by
  have he : extract_text_from_image env p = imageSuccess p := by
    simp [extract_text_from_image, h, imageSuccess]
  rw [he]
  exact ⟨rfl, rfl, rfl, "Simulated OCR result for " ++ p, rfl,
    "Simulated OCR result for ", "", (String.append_empty _).symm⟩

/-- Concrete instance of `image_success_fields` at `envAll`, `"photo.png"`. -/
theorem image_success_fields_witness :
    envAll "photo.png" = .ok true ∧
    ((extract_text_from_image envAll "photo.png").lookup "confidence" = some (.floatVal 0.95) ∧
     (extract_text_from_image envAll "photo.png").lookup "language" = some (.str "zh") ∧
     (extract_text_from_image envAll "photo.png").lookup "boxes" = some (.arr .nil) ∧
     ∃ t : String, (extract_text_from_image envAll "photo.png").lookup "text" = some (.str t) ∧
       containsSubstring t "photo.png") :=
  ⟨rfl, image_success_fields envAll "photo.png" rfl⟩

/-- Claim C2: for every path that exists, `extract_text_from_pdf` returns a
mapping whose `pages` field is a one-element sequence whose element has
`page` equal to `1`, `confidence` equal to `0.95`, `language` equal to
`"zh"`, and `text` equal to `"Simulated OCR result for page 1 of "`
followed by the path, which therefore contains the path as a substring. -/
theorem pdf_success_single_page (env : String → Except String Bool) (p : String)
    (h : env p = .ok true) :
    (extract_text_from_pdf env p).lookup "pages" =
      some (.arr (.cons (.obj (.cons "page" (.intVal 1)
        (.cons "text" (.str ("Simulated OCR result for page 1 of " ++ p))
        (.cons "confidence" (.floatVal 0.95)
        (.cons "language" (.str "zh") .nil))))) .nil)) ∧
    containsSubstring ("Simulated OCR result for page 1 of " ++ p) p := by
  have he : extract_text_from_pdf env p = pdfSuccess p := by
    simp [extract_text_from_pdf, h, pdfSuccess]
  rw [he]
  exact ⟨rfl, "Simulated OCR result for page 1 of ", "", (String.append_empty _).symm⟩

/-- Concrete instance of `pdf_success_single_page` at `envAll`, `"d.pdf"`. -/
theorem pdf_success_single_page_witness :
    envAll "d.pdf" = .ok true ∧
    ((extract_text_from_pdf envAll "d.pdf").lookup "pages" =
      some (.arr (.cons (.obj (.cons "page" (.intVal 1)
        (.cons "text" (.str ("Simulated OCR result for page 1 of " ++ "d.pdf"))
        (.cons "confidence" (.floatVal 0.95)
        (.cons "language" (.str "zh") .nil))))) .nil)) ∧
     containsSubstring ("Simulated OCR result for page 1 of " ++ "d.pdf") "d.pdf") :=
  ⟨rfl, pdf_success_single_page envAll "d.pdf" rfl⟩

/-- Claim C3: for every path that does not exist, both stubs return exactly
the single-field mapping with `error` bound to `"File not found: "`
followed by the path, and the process still exits with status 0 in both
modes. -/
theorem missing_file_error_exit_zero (env : String → Except String Bool) (p : String)
    (h : env p = .ok false) :
    extract_text_from_image env p = errorObj ("File not found: " ++ p) ∧
    extract_text_from_pdf env p = errorObj ("File not found: " ++ p) ∧
    ∀ a0 : String, (dots_ocr.main env [a0, "image", p]).exitCode = 0 ∧
      (dots_ocr.main env [a0, "pdf", p]).exitCode = 0 := by
  refine ⟨?_, ?_, fun a0 => ⟨rfl, rfl⟩⟩
  · simp [extract_text_from_image, h, errorObj]
  · simp [extract_text_from_pdf, h, errorObj]

/-- Concrete instance of `missing_file_error_exit_zero` at `envNone`,
`"missing.png"`. -/
theorem missing_file_error_exit_zero_witness :
    envNone "missing.png" = .ok false ∧
    (extract_text_from_image envNone "missing.png" = errorObj ("File not found: " ++ "missing.png") ∧
     extract_text_from_pdf envNone "missing.png" = errorObj ("File not found: " ++ "missing.png") ∧
     ∀ a0 : String, (dots_ocr.main envNone [a0, "image", "missing.png"]).exitCode = 0 ∧
       (dots_ocr.main envNone [a0, "pdf", "missing.png"]).exitCode = 0) :=
  ⟨rfl, missing_file_error_exit_zero envNone "missing.png" rfl⟩

/-- Claim C4: with fewer than two user-supplied arguments, the process
prints the usage error object (a JSON object whose single `error` key holds
the usage message) to standard output and exits with status 1. -/
theorem usage_error_nonzero_exit (env : String → Except String Bool)
    (argv : List String) (h : argv.length < 3) :
    (dots_ocr.main env argv).stdout =
      dumps true (errorObj "Usage: python dots_ocr.py <mode> <file_path>") ++ "\n" ∧
    (errorObj "Usage: python dots_ocr.py <mode> <file_path>").lookup "error" =
      some (.str "Usage: python dots_ocr.py <mode> <file_path>") ∧
    (dots_ocr.main env argv).exitCode = 1 := by
  refine ⟨?_, rfl, ?_⟩ <;> simp [dots_ocr.main, h]

/-- Concrete instance of `usage_error_nonzero_exit` with only the program
name in `argv`. -/
theorem usage_error_nonzero_exit_witness :
    (["dots_ocr.py"] : List String).length < 3 ∧
    ((dots_ocr.main envAll ["dots_ocr.py"]).stdout =
      dumps true (errorObj "Usage: python dots_ocr.py <mode> <file_path>") ++ "\n" ∧
     (errorObj "Usage: python dots_ocr.py <mode> <file_path>").lookup "error" =
       some (.str "Usage: python dots_ocr.py <mode> <file_path>") ∧
     (dots_ocr.main envAll ["dots_ocr.py"]).exitCode = 1) :=
  ⟨by decide, usage_error_nonzero_exit envAll ["dots_ocr.py"] (by decide)⟩

/-- Claim C5: with at least two user-supplied arguments and a mode that is
neither `"image"` nor `"pdf"`, the process prints the fixed invalid-mode
error object and exits with status 1, and the outcome does not consult the
filesystem oracle at all (neither stub is invoked). -/
theorem invalid_mode_fixed_error (env : String → Except String Bool)
    (argv : List String) (h : 3 ≤ argv.length)
    (hi : argv.getD 1 "" ≠ "image") (hp : argv.getD 1 "" ≠ "pdf") :
    (dots_ocr.main env argv).stdout =
      dumps true (errorObj "Invalid mode. Use \x27image\x27 or \x27pdf\x27") ++ "\n" ∧
    (dots_ocr.main env argv).exitCode = 1 ∧
    ∀ env2 : String → Except String Bool, dots_ocr.main env2 argv = dots_ocr.main env argv := by
  have h3 : ¬ argv.length < 3 := by omega
  have hi2 := hi
  have hp2 := hp
  simp only [List.getD_eq_getElem?_getD] at hi2 hp2
  refine ⟨?_, ?_, fun env2 => ?_⟩ <;> simp [dots_ocr.main, h3, hi2, hp2]

/-- Concrete instance of `invalid_mode_fixed_error` at mode `"txt"`. -/
theorem invalid_mode_fixed_error_witness :
    3 ≤ (["dots_ocr.py", "txt", "a.png"] : List String).length ∧
    (["dots_ocr.py", "txt", "a.png"] : List String).getD 1 "" ≠ "image" ∧
    (["dots_ocr.py", "txt", "a.png"] : List String).getD 1 "" ≠ "pdf" ∧
    ((dots_ocr.main envAll ["dots_ocr.py", "txt", "a.png"]).stdout =
      dumps true (errorObj "Invalid mode. Use \x27image\x27 or \x27pdf\x27") ++ "\n" ∧
     (dots_ocr.main envAll ["dots_ocr.py", "txt", "a.png"]).exitCode = 1 ∧
     ∀ env2 : String → Except String Bool,
       dots_ocr.main env2 ["dots_ocr.py", "txt", "a.png"] =
         dots_ocr.main envAll ["dots_ocr.py", "txt", "a.png"]) :=
  ⟨by decide, by decide, by decide,
   invalid_mode_fixed_error envAll ["dots_ocr.py", "txt", "a.png"]
     (by decide) (by decide) (by decide)⟩

/-- Claim C6: an exception raised inside either stub body is caught at the
stub boundary and converted into the mapping with `error` bound to the
exception message; the process still exits with status 0 in both modes, and
the only non-zero exits are the two pre-dispatch usage-level checks. -/
theorem stub_exceptions_caught (env : String → Except String Bool) (p m : String)
    (h : env p = .error m) :
    extract_text_from_image env p = errorObj m ∧
    extract_text_from_pdf env p = errorObj m ∧
    (∀ a0 : String, (dots_ocr.main env [a0, "image", p]).exitCode = 0 ∧
      (dots_ocr.main env [a0, "pdf", p]).exitCode = 0) ∧
    ∀ argv : List String, (dots_ocr.main env argv).exitCode ≠ 0 →
      argv.length < 3 ∨ (argv.getD 1 "" ≠ "image" ∧ argv.getD 1 "" ≠ "pdf") := by
  refine ⟨by simp [extract_text_from_image, h, errorObj],
    by simp [extract_text_from_pdf, h, errorObj],
    fun a0 => ⟨rfl, rfl⟩, fun argv hne => ?_⟩
  by_cases h3 : argv.length < 3
  · exact Or.inl h3
  · by_cases him : argv.getD 1 "" = "image"
    · refine absurd ?_ hne
      have him2 := him
      simp only [List.getD_eq_getElem?_getD] at him2
      simp [dots_ocr.main, h3, him2]
    · by_cases hpd : argv.getD 1 "" = "pdf"
      · refine absurd ?_ hne
        have him2 := him
        have hpd2 := hpd
        simp only [List.getD_eq_getElem?_getD] at him2 hpd2
        simp [dots_ocr.main, h3, him2, hpd2]
      · exact Or.inr ⟨him, hpd⟩

/-- Concrete instance of `stub_exceptions_caught` at `envRaise`. -/
theorem stub_exceptions_caught_witness :
    envRaise "a.png" = .error "Permission denied" ∧
    (extract_text_from_image envRaise "a.png" = errorObj "Permission denied" ∧
     extract_text_from_pdf envRaise "a.png" = errorObj "Permission denied" ∧
     (∀ a0 : String, (dots_ocr.main envRaise [a0, "image", "a.png"]).exitCode = 0 ∧
       (dots_ocr.main envRaise [a0, "pdf", "a.png"]).exitCode = 0) ∧
     ∀ argv : List String, (dots_ocr.main envRaise argv).exitCode ≠ 0 →
       argv.length < 3 ∨ (argv.getD 1 "" ≠ "image" ∧ argv.getD 1 "" ≠ "pdf")) :=
  ⟨rfl, stub_exceptions_caught envRaise "a.png" "Permission denied" rfl⟩

/-- Claim C7: for a fixed path, the result of each stub depends only on the
answer of the existence check, never on file contents: two environments
agreeing on the existence of the path yield identical results. -/
theorem result_independent_of_contents (env env2 : String → Except String Bool)
    (p : String) (h : env p = env2 p) :
    extract_text_from_image env p = extract_text_from_image env2 p ∧
    extract_text_from_pdf env p = extract_text_from_pdf env2 p := by
  unfold extract_text_from_image extract_text_from_pdf
  rw [h]
  exact ⟨rfl, rfl⟩

/-- Concrete instance of `result_independent_of_contents` at two distinct
environments agreeing on `"a.png"`. -/
theorem result_independent_of_contents_witness :
    envAll "a.png" = (fun s => if s = "other" then Except.ok false else Except.ok true) "a.png" ∧
    (extract_text_from_image envAll "a.png" =
      extract_text_from_image (fun s => if s = "other" then Except.ok false else Except.ok true) "a.png" ∧
     extract_text_from_pdf envAll "a.png" =
      extract_text_from_pdf (fun s => if s = "other" then Except.ok false else Except.ok true) "a.png") :=
  ⟨rfl, result_independent_of_contents envAll
    (fun s => if s = "other" then Except.ok false else Except.ok true) "a.png" rfl⟩

/-- Every image-stub result is a JSON object. -/
theorem extract_image_isObj (env : String → Except String Bool) (p : String) :
    ∃ fields : JsonObj, extract_text_from_image env p = .obj fields := by
  unfold extract_text_from_image
  rcases env p with e | ex
  · exact ⟨_, rfl⟩
  · cases ex
    · exact ⟨_, rfl⟩
    · exact ⟨_, rfl⟩

/-- Every PDF-stub result is a JSON object. -/
theorem extract_pdf_isObj (env : String → Except String Bool) (p : String) :
    ∃ fields : JsonObj, extract_text_from_pdf env p = .obj fields := by
  unfold extract_text_from_pdf
  rcases env p with e | ex
  · exact ⟨_, rfl⟩
  · cases ex
    · exact ⟨_, rfl⟩
    · exact ⟨_, rfl⟩

/-- Claim C8: every invocation writes to standard output exactly one JSON
object followed by a newline, rendered by the serializer that emits
non-ASCII characters literally; on the two pre-dispatch error paths the
script uses the escaping serializer, but those objects are pure ASCII, so
their renderings coincide with the literal one. -/
theorem single_json_object_stdout (env : String → Except String Bool)
    (argv : List String) :
    ∃ fields : JsonObj,
      (dots_ocr.main env argv).stdout = dumps false (.obj fields) ++ "\n" := by
  by_cases h3 : argv.length < 3
  · refine ⟨.cons "error" (.str "Usage: python dots_ocr.py <mode> <file_path>") .nil, ?_⟩
    have hs : (dots_ocr.main env argv).stdout =
        dumps true (errorObj "Usage: python dots_ocr.py <mode> <file_path>") ++ "\n" := by
      simp [dots_ocr.main, h3]
    rw [hs]; decide
  · by_cases him : argv.getD 1 "" = "image"
    · have him2 := him
      simp only [List.getD_eq_getElem?_getD] at him2
      obtain ⟨fs, hfs⟩ := extract_image_isObj env (argv[2]?.getD "")
      exact ⟨fs, by simp [dots_ocr.main, h3, him2, hfs]⟩
    · by_cases hpd : argv.getD 1 "" = "pdf"
      · have him2 := him
        have hpd2 := hpd
        simp only [List.getD_eq_getElem?_getD] at him2 hpd2
        obtain ⟨fs, hfs⟩ := extract_pdf_isObj env (argv[2]?.getD "")
        exact ⟨fs, by simp [dots_ocr.main, h3, him2, hpd2, hfs]⟩
      · have him2 := him
        have hpd2 := hpd
        simp only [List.getD_eq_getElem?_getD] at him2 hpd2
        refine ⟨.cons "error" (.str "Invalid mode. Use \x27image\x27 or \x27pdf\x27") .nil, ?_⟩
        have hs : (dots_ocr.main env argv).stdout =
            dumps true (errorObj "Invalid mode. Use \x27image\x27 or \x27pdf\x27") ++ "\n" := by
          simp [dots_ocr.main, h3, him2, hpd2]
        rw [hs]; decide

/-- Claim C9: both stubs are total and return exactly one of two mutually
exclusive shapes: the fixed success object when the path exists, and the
single-key error object when it does not or the check raised. -/
theorem stub_total_two_shapes (env : String → Except String Bool) (p : String) :
    (env p = .ok true →
      extract_text_from_image env p = imageSuccess p ∧
      extract_text_from_pdf env p = pdfSuccess p) ∧
    (env p ≠ .ok true →
      ∃ m : String, extract_text_from_image env p = errorObj m ∧
        extract_text_from_pdf env p = errorObj m) ∧
    ∀ m : String, imageSuccess p ≠ errorObj m ∧ pdfSuccess p ≠ errorObj m := by
  refine ⟨fun h => ⟨by simp [extract_text_from_image, h, imageSuccess],
      by simp [extract_text_from_pdf, h, pdfSuccess]⟩, fun h => ?_, fun m => ⟨?_, ?_⟩⟩
  · rcases hE : env p with e | ex
    · exact ⟨e, by simp [extract_text_from_image, hE, errorObj],
        by simp [extract_text_from_pdf, hE, errorObj]⟩
    · cases ex
      · exact ⟨"File not found: " ++ p,
          by simp [extract_text_from_image, hE, errorObj],
          by simp [extract_text_from_pdf, hE, errorObj]⟩
      · exact absurd hE h
  · intro hEq
    simp [imageSuccess, errorObj] at hEq
  · intro hEq
    simp [pdfSuccess, errorObj] at hEq

/-- Concrete instances of `stub_total_two_shapes`: the success shape on an
existing path, the error shape on a missing one. -/
theorem stub_total_two_shapes_witness :
    (extract_text_from_image envAll "doc.png" = imageSuccess "doc.png" ∧
     extract_text_from_pdf envAll "doc.png" = pdfSuccess "doc.png") ∧
    ∃ m : String, extract_text_from_image envNone "doc.png" = errorObj m ∧
      extract_text_from_pdf envNone "doc.png" = errorObj m :=
  ⟨(stub_total_two_shapes envAll "doc.png").1 rfl,
   (stub_total_two_shapes envNone "doc.png").2.1 (by simp [envNone])⟩

/-- Claim C10: arguments beyond the first two user-supplied ones are
ignored: the outcome on any longer argument vector equals the outcome on
its first three entries. -/
theorem extra_args_ignored (env : String → Except String Bool)
    (a0 a1 a2 : String) (rest : List String) :
    dots_ocr.main env (a0 :: a1 :: a2 :: rest) = dots_ocr.main env [a0, a1, a2] := by
  have h1 : ¬ (a0 :: a1 :: a2 :: rest).length < 3 := by
    simp only [List.length_cons]; omega
  have h2 : ¬ ([a0, a1, a2] : List String).length < 3 := by
    simp only [List.length_cons]; omega
  simp only [dots_ocr.main, h1, h2, if_false, List.getD_cons_succ, List.getD_cons_zero]
